import Mathlib

/-!
Verification of the Screwdriver Kubernetes executor (`index.js`).

This file gives a shallow embedding of the executor's core logic —
annotation-driven resource resolution, pod-spec assembly helpers
(`setNodeSelector`, `setLabels`), the retry predicates
(`scheduleStatusRetryStrategy`, `pendingStatusRetryStrategy`), the start
protocol (`_start` / `getPodStatus`), the stop protocol (`_stop`) and the
verification scan (`_verify`) — and proves or refutes the behavioural
properties stated in the component's specification.

The HTTP transport, circuit breaker and the handlebars/yaml templating are
external collaborators per the specification; they appear here as explicit
inputs (response values handed to the embedded functions) rather than as
effects.  JavaScript values are modelled with explicit `Option`s for
`undefined`, and JavaScript numbers with `ℚ` (the configured `microCpu`
default is 0.5).
-/

namespace ExecK8s

/-- Value of one entry of the (already prefix-parsed) annotation map.
JavaScript annotation values reaching `createPodConfig` are strings,
integral numbers, or booleans; absence (`undefined`) is `Option.none`
at use sites. -/
inductive AnnVal where
  | str (s : String)
  | int (n : Int)
  | bool (b : Bool)
deriving DecidableEq, Repr

/-- Property-key coercion used by the JavaScript `in` operator: the
looked-up key is the string form of the value. -/
def annKey : AnnVal → String
  | .str s => s
  | .int n => toString n
  | .bool b => toString b

/-- Lookup in the annotation map (a JavaScript object keyed by strings). -/
def annLookup (anns : List (String × AnnVal)) (k : String) : Option AnnVal :=
  (anns.find? (fun kv => kv.1 = k)).map (fun kv => kv.2)

/-- Configuration fields of the executor instance that the embedded
operations read (constructor, `index.js` lines 235-320).  `prefixVal` is
the `options.prefix` job-name prefix. -/
structure K8sConfig where
  prefixVal : String
  maxCpu : ℚ
  turboCpu : ℚ
  highCpu : ℚ
  lowCpu : ℚ
  microCpu : ℚ
  maxMemory : ℚ
  turboMemory : ℚ
  highMemory : ℚ
  lowMemory : ℚ
  microMemory : ℚ
  maxAttempts : Nat
  cacheStrategy : String
  dockerFeatureEnabled : Bool
deriving DecidableEq, Repr

/-- Default configuration: the fallback values hard-coded in the
constructor of `K8sExecutor` (`index.js` lines 248-294). -/
def defaultK8sConfig : K8sConfig :=
  { prefixVal := ""
    maxCpu := 12
    turboCpu := 12
    highCpu := 6
    lowCpu := 2
    microCpu := 1/2
    maxMemory := 16
    turboMemory := 16
    highMemory := 12
    lowMemory := 2
    microMemory := 1
    maxAttempts := 5
    cacheStrategy := "s3"
    dockerFeatureEnabled := false }

/-- The `cpuValues` lookup table of `createPodConfig` (`index.js` lines
479-485): symbolic tier name to configured CPU value in cores. -/
def cpuValues (cfg : K8sConfig) (k : String) : Option ℚ :=
  if k = "MAX" then some cfg.maxCpu
  else if k = "TURBO" then some cfg.turboCpu
  else if k = "HIGH" then some cfg.highCpu
  else if k = "LOW" then some cfg.lowCpu
  else if k = "MICRO" then some cfg.microCpu
  else none

/-- The `memValues` lookup table of `createPodConfig` (`index.js` lines
506-511).  Note that, unlike `cpuValues`, it has no `MAX` entry. -/
def memValues (cfg : K8sConfig) (k : String) : Option ℚ :=
  if k = "TURBO" then some cfg.turboMemory
  else if k = "HIGH" then some cfg.highMemory
  else if k = "LOW" then some cfg.lowMemory
  else if k = "MICRO" then some cfg.microMemory
  else none

/-- CPU resolution of `createPodConfig` (`index.js` lines 498-504):
`cpuConfig in cpuValues ? cpuValues[cpuConfig] * 1000 : cpuValues.LOW * 1000`,
then overridden with `Math.min(cpuConfig, this.maxCpu) * 1000` when
`Number.isInteger(cpuConfig)`. -/
def resolveCpu (cfg : K8sConfig) (cpuConfig : Option AnnVal) : ℚ :=
  let base :=
    match cpuConfig with
    | some v =>
        match cpuValues cfg (annKey v) with
        | some tier => tier * 1000
        | none => cfg.lowCpu * 1000
    | none => cfg.lowCpu * 1000
  match cpuConfig with
  | some (.int n) => min (n : ℚ) cfg.maxCpu * 1000
  | _ => base

/-- Memory resolution of `createPodConfig` (`index.js` lines 512-518):
`memConfig in memValues ? memValues[memConfig] : memValues.LOW`, then
overridden with `Math.min(memConfig, this.maxMemory)` when
`Number.isInteger(memConfig)`. -/
def resolveMem (cfg : K8sConfig) (memConfig : Option AnnVal) : ℚ :=
  let base :=
    match memConfig with
    | some v =>
        match memValues cfg (annKey v) with
        | some tier => tier
        | none => cfg.lowMemory
    | none => cfg.lowMemory
  match memConfig with
  | some (.int n) => min (n : ℚ) cfg.maxMemory
  | _ => base

/-- Docker-in-docker CPU resolution (`index.js` lines 523-524); no
integer override branch exists for it. -/
def resolveDockerCpu (cfg : K8sConfig) (dockerCpuConfig : Option AnnVal) : ℚ :=
  match dockerCpuConfig with
  | some v =>
      match cpuValues cfg (annKey v) with
      | some tier => tier * 1000
      | none => cfg.lowCpu * 1000
  | none => cfg.lowCpu * 1000

/-- Docker-in-docker memory resolution (`index.js` lines 526-527). -/
def resolveDockerMem (cfg : K8sConfig) (dockerMemoryConfig : Option AnnVal) : ℚ :=
  match dockerMemoryConfig with
  | some v =>
      match memValues cfg (annKey v) with
      | some tier => tier
      | none => cfg.lowMemory
  | none => cfg.lowMemory

/-! ## Pull-request job-name regex

`index.js` line 37 declares the module-level constant
`PR_JOBNAME_REGEX_PATTERN = /^PR-([0-9]+)(?::[\w-]+)?$/gi`.  Because the
pattern carries the global flag, `exec` is stateful: it starts matching at
the regex object's `lastIndex` and, `^`/`$` being anchors, a call with
`lastIndex > 0` cannot match; it returns `null` and resets `lastIndex` to
0, while a successful match sets `lastIndex` to the end of the match. -/

/-- Character class `[0-9]`. -/
def isDigitChar (c : Char) : Bool := '0' ≤ c && c ≤ '9'

/-- Character class `[\w-]` (`\w` is `[A-Za-z0-9_]`). -/
def isWordOrDash (c : Char) : Bool :=
  ('A' ≤ c && c ≤ 'Z') || ('a' ≤ c && c ≤ 'z') || isDigitChar c || c = '_' || c = '-'

/-- Matches the remainder after the first digit: further digits, then
optionally a `:` followed by one or more `[\w-]` characters, then end of
string. -/
def prRestMatch : List Char → Bool
  | [] => true
  | ':' :: cs => !cs.isEmpty && cs.all isWordOrDash
  | c :: cs => isDigitChar c && prRestMatch cs

/-- Whole-string match of `/^PR-([0-9]+)(?::[\w-]+)?$/i` (the pattern has
exactly one capturing group, so a successful `exec` result always has
length 2). -/
def isPRJobName (s : String) : Bool :=
  match s.data with
  | p :: r :: d :: rest =>
      (p = 'P' || p = 'p') && (r = 'R' || r = 'r') && d = '-' &&
        (match rest with
         | c :: cs => isDigitChar c && prRestMatch cs
         | [] => false)
  | _ => false

/-- One `PR_JOBNAME_REGEX_PATTERN.exec(jobName)` call with the global
flag's `lastIndex` state: returns whether a (full, length-2) match was
produced together with the regex object's new `lastIndex`. -/
def prExec (lastIndex : Nat) (jobName : String) : Bool × Nat :=
  if lastIndex = 0 then
    if isPRJobName jobName then (true, jobName.length) else (false, 0)
  else
    (false, 0)

/-! ## Pod-spec bindings (`createPodConfig`)

`createPodConfig` (`index.js` lines 472-630) renders the external
handlebars template `./config/pod.yaml.hbs` with a set of scalar bindings
and then decorates the parsed document.  The templating engine is an
external collaborator, so the embedding records the bindings themselves.
The pod name is `{buildContainerName}-{random}` for a fresh 5-character
random suffix drawn outside this model; `PodBindings` records everything
up to that randomized suffix. -/

/-- Mutable state an executor instance carries across `createPodConfig`
calls: the instance field `this.cachePath` (reassigned at `index.js` line
547) and the module-level PR regex object's `lastIndex`. -/
structure ExecState where
  cachePath : String
  prLastIndex : Nat
deriving DecidableEq, Repr

/-- Template bindings computed by `createPodConfig`, excluding the
randomized pod-name suffix.  `jobId` is the build's job id, replaced for
pull requests by the `prParentJobId` claim of the decoded build token. -/
structure PodBindings where
  cpu : ℚ
  memory : ℚ
  buildIdWithPrefix : String
  cacheDiskEnabled : Bool
  cachePath : String
  cacheVolumeReadOnly : Bool
  jobId : Option Nat
  dockerEnabled : Bool
  dockerCpu : ℚ
  dockerMemory : ℚ
deriving DecidableEq, Repr

/-- Start request as `createPodConfig` consumes it: identifiers, the
parsed annotation map, and the `prParentJobId` claim carried by the build
token (read via `jwt.decode` for pull-request jobs). -/
structure StartConfig where
  buildId : Nat
  jobId : Option Nat
  jobName : Option String
  tokenPrParentJobId : Option Nat
  annotations : List (String × AnnVal)
deriving DecidableEq, Repr

/-- Embedding of `createPodConfig` (`index.js` lines 472-630) restricted
to the bindings of `PodBindings`: PR detection via the stateful global
regex, resource resolution, the disk-cache branch that reassigns
`this.cachePath`, and the docker-in-docker resolution.  Returns the
bindings together with the executor state after the call. -/
def createPodConfig (cfg : K8sConfig) (st : ExecState) (c : StartConfig) :
    PodBindings × ExecState :=
  let jobName := c.jobName.getD ""
  let (matched, lastIndex') := prExec st.prLastIndex jobName
  let volumeReadOnly := matched
  let jobId := if matched then (c.tokenPrParentJobId <|> c.jobId) else c.jobId
  let cpu := resolveCpu cfg (annLookup c.annotations "cpu")
  let memory := resolveMem cfg (annLookup c.annotations "ram")
  let dockerEnabledConfig := annLookup c.annotations "dockerEnabled"
  let dockerEnabled := cfg.dockerFeatureEnabled && dockerEnabledConfig = some (.bool true)
  let dockerCpu := resolveDockerCpu cfg (annLookup c.annotations "dockerCpu")
  let dockerMemory := resolveDockerMem cfg (annLookup c.annotations "dockerRam")
  let diskCacheEnabled := st.cachePath ≠ "" && cfg.cacheStrategy = "disk"
  let cachePath' :=
    if diskCacheEnabled && cfg.prefixVal ≠ "" then
      st.cachePath ++ "/" ++ cfg.prefixVal
    else
      st.cachePath
  let buildContainerName := cfg.prefixVal ++ toString c.buildId
  (⟨cpu, memory, buildContainerName, diskCacheEnabled, cachePath',
      volumeReadOnly, jobId, dockerEnabled, dockerCpu, dockerMemory⟩,
    ⟨cachePath', lastIndex'⟩)

/-! ## Placement constraints (`setNodeSelector`) -/

/-- One entry of `spec.tolerations` as pushed by `setNodeSelector`. -/
structure Toleration where
  key : String
  value : String
  effect : String
  operator : String
deriving DecidableEq, Repr

/-- One entry of the required-node-affinity `matchExpressions` list as
pushed by `setNodeSelector`. -/
structure MatchExpression where
  key : String
  operator : String
  values : List String
deriving DecidableEq, Repr

/-- Placement-relevant part of a pod document: `spec.tolerations`, the
required node-affinity `nodeSelectorTerms[0].matchExpressions`, and the
preferred node-affinity list (a list of weighted entries, each holding its
own `matchExpressions`). -/
structure Placement where
  tolerations : List Toleration
  matchExpressions : List MatchExpression
  preferred : List (Nat × List MatchExpression)
deriving DecidableEq, Repr

/-- Modelled from the spec: the rendered base manifest (the template
`config/pod.yaml.hbs`, which is not under `src/`) declares no
tolerations and no node-affinity entries; placement constraints are only
ever appended afterwards by `setNodeSelector` and
`setPreferredNodeSelector` (spec §4.2 step 6, §8). -/
def basePlacement : Placement := ⟨[], [], []⟩

/-- Embedding of `setNodeSelector` (`index.js` lines 77-104): for each
key of the node-selector map, push one toleration
`{key, value, effect: NoSchedule, operator: Equal}` and one required
match expression `{key, operator: In, values: [value]}`; do nothing when
the map is absent or empty. -/
def setNodeSelector (pod : Placement) (nodeSelectors : Option (List (String × String))) :
    Placement :=
  match nodeSelectors with
  | none => pod
  | some sel =>
      if sel.isEmpty then pod
      else
        { pod with
          tolerations :=
            pod.tolerations ++ sel.map (fun kv => ⟨kv.1, kv.2, "NoSchedule", "Equal"⟩)
          matchExpressions :=
            pod.matchExpressions ++ sel.map (fun kv => ⟨kv.1, "In", [kv.2]⟩) }

/-- Embedding of `setPreferredNodeSelector` (`index.js` lines 129-160):
append a single entry of weight 100 whose `matchExpressions` has one
element per preferred selector pair. -/
def setPreferredNodeSelector (pod : Placement)
    (preferredNodeSelectors : Option (List (String × String))) : Placement :=
  match preferredNodeSelectors with
  | none => pod
  | some sel =>
      if sel.isEmpty then pod
      else
        { pod with
          preferred := pod.preferred ++ [(100, sel.map (fun kv => ⟨kv.1, "In", [kv.2]⟩))] }

/-! ## Pod labels (`setLabels`)

JavaScript objects are modelled as association lists with unique keys in
insertion order; `Object.assign` updates an existing key in place and
appends unknown keys, later sources winning. -/

/-- A single `target[k] = v` JavaScript property write: replace the value
of an existing key in place, or append the pair. -/
def jsSet : List (String × String) → String → String → List (String × String)
  | [], k, v => [(k, v)]
  | (k', v') :: t, k, v =>
      if k' = k then (k, v) :: t else (k', v') :: jsSet t k v

/-- `Object.assign(target, source)`: apply every property write of the
source, in order, to the target. -/
def jsAssign (target : List (String × String)) : List (String × String) → List (String × String)
  | [] => target
  | (k, v) :: rest => jsAssign (jsSet target k v) rest

/-- The `defaultLabels` object of `setLabels` (`index.js` line 61). -/
def defaultLabels (buildContainerName : String) : List (String × String) :=
  [("app", "screwdriver"), ("tier", "builds"), ("sdbuild", buildContainerName)]

/-- Embedding of `setLabels` (`index.js` lines 60-69): the labels written
to `metadata.labels` are the default labels, with a non-empty
user-supplied `podLabels` object merged over them via `Object.assign`. -/
def setLabels (podLabels : Option (List (String × String))) (buildContainerName : String) :
    List (String × String) :=
  match podLabels with
  | none => defaultLabels buildContainerName
  | some ls =>
      if ls.isEmpty then defaultLabels buildContainerName
      else jsAssign (defaultLabels buildContainerName) ls

/-- ASCII lowering of one character, as JavaScript `toLowerCase` acts on
the ASCII phase and reason strings involved here. -/
def charToLower (c : Char) : Char :=
  if 'A' ≤ c && c ≤ 'Z' then Char.ofNat (c.toNat + 32) else c

/-- JavaScript `String.prototype.toLowerCase` on ASCII strings. -/
def jsToLowerCase (s : String) : String := ⟨s.data.map charToLower⟩

/-! ## Status responses and the per-call retry predicates -/

/-- One entry of `status.conditions` of a pod status body. -/
structure PodCondition where
  type : String
  status : String
deriving DecidableEq, Repr

/-- Pod status body fields the executor reaches into: `status.phase`
(present on every orchestrator-reported status; the source lowercases it
unconditionally), `spec.nodeName`, `status.conditions` and
`status.containerStatuses.0.state.waiting.reason`. -/
structure PodStatusBody where
  phase : String
  nodeName : Option String
  conditions : Option (List PodCondition)
  waitingReason : Option String
deriving DecidableEq, Repr

/-- A response of the workload status-read endpoint.  `bodyJson` is the
`JSON.stringify` rendering of the body used in error messages. -/
structure StatusResponse where
  statusCode : Nat
  body : PodStatusBody
  bodyJson : String
deriving DecidableEq, Repr

/-- Outcome of an `afterResponse` retry-predicate application: the
response is accepted, the controlled `Retry limit reached` signal is
thrown, or a `TypeError` escapes. -/
inductive HookOutcome where
  | accepted
  | retrySignal
  | typeError
deriving DecidableEq, Repr

/-- Embedding of `this.scheduleStatusRetryStrategy` (`index.js` lines
295-310).  `hoek.reach` of a missing `body.status.conditions` yields
`undefined` (`none`), leaving `scheduled` false; any present array — even
an empty one — is truthy, and `conditions.find(c => c.type ===
'PodScheduled')` returning `undefined` makes the subsequent `.status`
read throw a `TypeError`. -/
def scheduleStatusRetryStrategy (resp : StatusResponse) : HookOutcome :=
  match resp.body.conditions with
  | none => .retrySignal
  | some conds =>
      match conds.find? (fun c => c.type = "PodScheduled") with
      | none => .typeError
      | some c => if c.status = "True" then .accepted else .retrySignal

/-- Embedding of `this.pendingStatusRetryStrategy` (`index.js` lines
311-319): throw the retry signal while the phase is falsy or `pending`
(case-insensitively). -/
def pendingStatusRetryStrategy (resp : StatusResponse) : HookOutcome :=
  if resp.body.phase = "" || jsToLowerCase resp.body.phase = "pending" then
    .retrySignal
  else
    .accepted

/-- Modelled from the spec: the resilient request executor (the external
`screwdriver-request` transport, not under `src/`) performs up to
`retry.limit = maxAttempts` attempts; each attempt's response passes
through the supplied `afterResponse` hook, a thrown retry signal consumes
one attempt (the final one propagating as the error), and a `TypeError`
escaping the hook aborts the call.  `stream i` is the response of the
`i`-th attempt; on acceptance the number of attempts consumed is returned
with the response. -/
def pollSchedule : Nat → (Nat → StatusResponse) → Except String (StatusResponse × Nat)
  | 0, _ => .error "Retry limit reached"
  | n + 1, stream =>
      match scheduleStatusRetryStrategy (stream 0) with
      | .accepted => .ok (stream 0, 1)
      | .retrySignal =>
          (pollSchedule n (fun i => stream (i + 1))).map (fun p => (p.1, p.2 + 1))
      | .typeError => .error "TypeError: Cannot read properties of undefined"

/-! ## Start protocol -/

/-- A response of the workload-create endpoint (`POST podsUrl`). -/
structure CreateResponse where
  statusCode : Nat
  podName : String
  bodyJson : String
deriving DecidableEq, Repr

/-- Embedding of `getPodStatus` (`index.js` lines 422-458): run the
status read under the schedule-wait retry policy, fail on a non-200
final response, fail on a final phase of `failed` or `unknown`, and
otherwise report whether the pod is still pending together with its
assigned node.  Container waiting reasons are never inspected here. -/
def getPodStatus (cfg : K8sConfig) (stream : Nat → StatusResponse) :
    Except String (Bool × Option String) :=
  match pollSchedule cfg.maxAttempts stream with
  | .error e => .error e
  | .ok (resp, _) =>
      if resp.statusCode ≠ 200 then
        .error ("Failed to get pod status:" ++ resp.bodyJson)
      else
        let status := jsToLowerCase resp.body.phase
        if status = "failed" || status = "unknown" then
          .error ("Failed to create pod. Pod status is: " ++ status)
        else
          .ok (status = "pending", resp.body.nodeName)

/-- Content of the interim build-status report `_start` issues
(`index.js` lines 393-406): image-pull stats when a node has been
assigned, the waiting status message otherwise. -/
inductive UpdateContent where
  | stats (hostname : String)
  | statusMessage (m : String)
deriving DecidableEq, Repr

/-- The `updateConfig` payload choice of `_start`. -/
def startUpdateContent (nodeName : Option String) : UpdateContent :=
  match nodeName with
  | some n => .stats n
  | none => .statusMessage "Waiting for resources to be available."

/-- Embedding of `_start` (`index.js` lines 371-414) after the pod spec
has been built: fail on a non-201 create response, read the pod status
under the schedule-wait policy, issue the build-status report (whose
external outcome is `updateResult`), and resolve to `!isPending`.  The
surrounding `try/catch` logs any error and rethrows it, so a rejected
`updateBuild` call also rejects `_start`. -/
def _start (cfg : K8sConfig) (createResp : CreateResponse)
    (stream : Nat → StatusResponse) (updateResult : Except String Unit) :
    Except String Bool :=
  if createResp.statusCode ≠ 201 then
    .error ("Failed to create pod:" ++ createResp.bodyJson)
  else
    match getPodStatus cfg stream with
    | .error e => .error e
    | .ok (isPending, _) =>
        match updateResult with
        | .error e => .error e
        | .ok _ => .ok (!isPending)

/-! ## Stop protocol -/

/-- A response of the workload delete endpoint. -/
structure StopResponse where
  statusCode : Nat
  bodyJson : String
deriving DecidableEq, Repr

/-- The delete call `_stop` issues against the workload collection
endpoint, keyed by its label selector. -/
structure DeleteRequest where
  method : String
  labelSelector : String
deriving DecidableEq, Repr

/-- Embedding of `_stop` (`index.js` lines 639-665): issue one delete
call with label selector `sdbuild=<prefix><buildId>`; a non-200 response
is a fatal error carrying the stringified response body, otherwise the
call resolves to `null` (modelled `Option.none`).  The first component
lists the delete calls issued during the invocation. -/
def _stop (cfg : K8sConfig) (buildId : Nat) (resp : StopResponse) :
    List DeleteRequest × Except String (Option Unit) :=
  ([⟨"DELETE", "sdbuild=" ++ cfg.prefixVal ++ toString buildId⟩],
    if resp.statusCode ≠ 200 then
      .error ("Failed to delete pod:" ++ resp.bodyJson)
    else
      .ok none)

/-! ## Verification scan -/

/-- A pod as listed by `getPods`: its `status.phase` and the waiting
reason of its first container status, when any. -/
structure Pod where
  phase : String
  waitingReason : Option String
deriving DecidableEq, Repr

/-- Waiting reasons classified as fatal configuration errors by
`_verify` (`index.js` line 695). -/
def fatalAdminReasons : List String :=
  ["CrashLoopBackOff", "CreateContainerConfigError", "CreateContainerError", "StartError"]

/-- Waiting reasons classified as fatal image errors by `_verify`
(`index.js` line 704). -/
def fatalImageReasons : List String :=
  ["ErrImagePull", "ImagePullBackOff", "InvalidImageName"]

/-- The `pods.find` scan of `_verify` (`index.js` lines 683-715).  The
accumulator is the `waitingReason` outer variable, reassigned for every
examined pod; the scan stops at the first pod that yields a message
(the callback's final `return message !== undefined` is always false,
since a defined message returns true earlier in the same iteration).
Returns the message, if any, and the final value of `waitingReason`. -/
def verifyScan : Option String → List Pod → Option String × Option String
  | w, [] => (none, w)
  | _, p :: rest =>
      let status := jsToLowerCase p.phase
      let w := p.waitingReason
      if status = "failed" || status = "unknown" then
        (some ("Failed to create pod. Pod status is: " ++ status), w)
      else if w.any (fun r => fatalAdminReasons.contains r) then
        (some "Build failed to start. Please reach out to your cluster admin for help.", w)
      else if w.any (fun r => fatalImageReasons.contains r) then
        (some "Build failed to start. Please check if your image is valid.", w)
      else
        verifyScan w rest

/-- Embedding of `_verify` (`index.js` lines 674-724): scan the listed
pods, then throw the retryable still-initializing error when the
`waitingReason` left behind by the scan is `PodInitializing`, and
otherwise resolve with the scan's message. -/
def _verify (pods : List Pod) : Except String (Option String) :=
  let r := verifyScan none pods
  if r.2 = some "PodInitializing" then
    .error "Build failed to start. Pod is still intializing."
  else
    .ok r.1

/-- Terminal classification of a single pod per the failure table of the
specification (§4.3): failed/unknown phase, fatal configuration waiting
reasons, fatal image waiting reasons; `none` for transient states. -/
def classifyPod (p : Pod) : Option String :=
  let status := jsToLowerCase p.phase
  if status = "failed" || status = "unknown" then
    some ("Failed to create pod. Pod status is: " ++ status)
  else if p.waitingReason.any (fun r => fatalAdminReasons.contains r) then
    some "Build failed to start. Please reach out to your cluster admin for help."
  else if p.waitingReason.any (fun r => fatalImageReasons.contains r) then
    some "Build failed to start. Please check if your image is valid."
  else
    none

/-- The first terminal classification among the listed pods, in order. -/
def firstClassification (pods : List Pod) : Option String :=
  pods.findSome? classifyPod

/-- The waiting reason recorded when the scan stops: that of the first
terminally-classified pod if one exists, otherwise that of the last pod
(the accumulator starts at the waiting reason recorded by a previous
prefix, `none` initially). -/
def scanStopReason : Option String → List Pod → Option String
  | w, [] => w
  | _, p :: rest =>
      if (classifyPod p).isSome then p.waitingReason
      else scanStopReason p.waitingReason rest

/-! ## Concrete runs used by the claim theorems -/

/-- Reading property `k` of a JavaScript object modelled as an
association list with unique keys. -/
def jsGet : List (String × String) → String → Option String
  | [], _ => none
  | (k', v') :: t, k => if k' = k then some v' else jsGet t k

/-- Configuration with the disk cache strategy and a non-empty job-name
prefix (the `beta_` prefix of the repository's tests). -/
def diskK8sConfig : K8sConfig :=
  { defaultK8sConfig with cacheStrategy := "disk", prefixVal := "beta_" }

/-- A pull-request start request: job name `PR-1:main`, own job id 1,
parent job id 999 carried by the build token. -/
def prStartConfig : StartConfig :=
  { buildId := 15, jobId := some 1, jobName := some "PR-1:main",
    tokenPrParentJobId := some 999, annotations := [] }

/-- A plain (non-PR) start request with no annotations. -/
def plainStartConfig : StartConfig :=
  { buildId := 15, jobId := some 1, jobName := none,
    tokenPrParentJobId := none, annotations := [] }

/-- First `createPodConfig` call of the PR scenario, on a fresh executor. -/
def prRun1 : PodBindings × ExecState :=
  createPodConfig defaultK8sConfig ⟨"/", 0⟩ prStartConfig

/-- Second, identical `createPodConfig` call of the PR scenario, on the
state the first call left behind. -/
def prRun2 : PodBindings × ExecState :=
  createPodConfig defaultK8sConfig prRun1.2 prStartConfig

/-- First `createPodConfig` call of the disk-cache scenario. -/
def diskRun1 : PodBindings × ExecState :=
  createPodConfig diskK8sConfig ⟨"/persistent_cache", 0⟩ plainStartConfig

/-- Second, identical `createPodConfig` call of the disk-cache scenario. -/
def diskRun2 : PodBindings × ExecState :=
  createPodConfig diskK8sConfig diskRun1.2 plainStartConfig

/-! ## Helper lemmas -/

/-- Reading after a single JavaScript property write. -/
theorem jsGet_jsSet (l : List (String × String)) (k v q : String) :
    jsGet (jsSet l k v) q = if k = q then some v else jsGet l q := by
  induction l with
  | nil => simp [jsSet, jsGet]
  | cons kv t ih =>
      obtain ⟨k', v'⟩ := kv
      by_cases hk : k' = k
      · subst hk
        by_cases h : k' = q <;> simp [jsSet, jsGet, h]
      · simp only [jsSet, if_neg hk, jsGet, ih]
        by_cases h1 : k' = q <;> by_cases h2 : k = q <;> simp [h1, h2]
        exact absurd (h1.trans h2.symm) hk

/-- Reading from the concatenation of two association lists. -/
theorem jsGet_append (l₁ l₂ : List (String × String)) (q : String) :
    jsGet (l₁ ++ l₂) q = (jsGet l₁ q <|> jsGet l₂ q) := by
  induction l₁ with
  | nil => simp [jsGet]
  | cons kv t ih =>
      obtain ⟨k', v'⟩ := kv
      by_cases h : k' = q <;> simp [jsGet, h, ih]

/-- Reading after `Object.assign`: the source's last binding wins, the
target's binding is the fallback. -/
theorem jsGet_jsAssign (src : List (String × String)) (target : List (String × String))
    (q : String) :
    jsGet (jsAssign target src) q = (jsGet src.reverse q <|> jsGet target q) := by
  induction src generalizing target with
  | nil => simp [jsAssign, jsGet]
  | cons kv rest ih =>
      obtain ⟨k, v⟩ := kv
      rw [jsAssign, ih, List.reverse_cons, jsGet_append, jsGet_jsSet]
      cases h : jsGet rest.reverse q with
      | some x => simp
      | none =>
          by_cases hq : k = q <;> simp [jsGet, hq]

/-- The `_verify` scan computes the first terminal classification and
stops with the waiting reason described by `scanStopReason`. -/
theorem verifyScan_eq (w : Option String) (pods : List Pod) :
    verifyScan w pods = (firstClassification pods, scanStopReason w pods) := by
  induction pods generalizing w with
  | nil => rfl
  | cons p rest ih =>
      simp only [verifyScan, firstClassification, List.findSome?_cons, scanStopReason,
        classifyPod]
      split_ifs with h1 h2 h3 <;>
        simp_all [classifyPod, firstClassification, h1]

/-! ## Claim theorems -/

/-- C5 (counterexample).  The symbolic tier `MAX` is not supported in
the ram dimension: with the default configuration, annotation
`ram: 'MAX'` resolves the memory to the LOW default 2 GB, not to the
configured `maxMemory` of 16 GB, because the `memValues` table has no
`MAX` entry. -/
theorem ram_max_resolves_to_low :
    resolveMem defaultK8sConfig (some (.str "MAX")) = 2 ∧
    defaultK8sConfig.maxMemory = 16 ∧
    resolveMem defaultK8sConfig (some (.str "MAX")) ≠ defaultK8sConfig.maxMemory := by
  refine ⟨rfl, rfl, ?_⟩
  decide

/-- C5 (amended).  For every configuration, the symbolic cpu tiers MAX,
TURBO, HIGH, LOW and MICRO resolve to the configured default for that
tier times 1000 (millicores), and the symbolic ram tiers TURBO, HIGH,
LOW and MICRO resolve to the configured default for that tier in GB;
the ram tier MAX is not in the memory lookup table and falls back to
the LOW memory default. -/
theorem symbolic_tier_resolution (cfg : K8sConfig) :
    (resolveCpu cfg (some (.str "MAX")) = cfg.maxCpu * 1000 ∧
     resolveCpu cfg (some (.str "TURBO")) = cfg.turboCpu * 1000 ∧
     resolveCpu cfg (some (.str "HIGH")) = cfg.highCpu * 1000 ∧
     resolveCpu cfg (some (.str "LOW")) = cfg.lowCpu * 1000 ∧
     resolveCpu cfg (some (.str "MICRO")) = cfg.microCpu * 1000) ∧
    (resolveMem cfg (some (.str "TURBO")) = cfg.turboMemory ∧
     resolveMem cfg (some (.str "HIGH")) = cfg.highMemory ∧
     resolveMem cfg (some (.str "LOW")) = cfg.lowMemory ∧
     resolveMem cfg (some (.str "MICRO")) = cfg.microMemory) ∧
    resolveMem cfg (some (.str "MAX")) = cfg.lowMemory := by
  refine ⟨⟨rfl, rfl, rfl, rfl, rfl⟩, ⟨rfl, rfl, rfl, rfl⟩, rfl⟩

/-- C6.  For every configuration and every integer cpu annotation value
`v`, the resolved cpu is `min(v, maxCpu) * 1000`; for every integer ram
annotation value, the resolved memory is `min(v, maxMemory)`. -/
theorem custom_integer_resolution (cfg : K8sConfig) (v : Int) :
    resolveCpu cfg (some (.int v)) = min (v : ℚ) cfg.maxCpu * 1000 ∧
    resolveMem cfg (some (.int v)) = min (v : ℚ) cfg.maxMemory :=
  ⟨rfl, rfl⟩

/-- C7.  Every Stop invocation issues exactly one delete call, with
label selector `sdbuild=<prefix><buildId>`; a non-200 response yields a
fatal error whose message embeds the stringified response body, and a
200 response resolves to `null`. -/
theorem stop_single_labeled_delete (cfg : K8sConfig) (buildId : Nat) (resp : StopResponse) :
    (_stop cfg buildId resp).1 =
        [⟨"DELETE", "sdbuild=" ++ cfg.prefixVal ++ toString buildId⟩] ∧
    (_stop cfg buildId resp).1.length = 1 ∧
    (_stop cfg buildId resp).2 =
      (if resp.statusCode = 200 then Except.ok none
       else Except.error ("Failed to delete pod:" ++ resp.bodyJson)) := by
  refine ⟨rfl, rfl, ?_⟩
  rcases eq_or_ne resp.statusCode 200 with h | h <;> simp [_stop, h]

/-- C8.  For every map of required node-selector pairs, the produced
placement contains exactly the toleration
`(key, value, NoSchedule, Equal)` and exactly the required-affinity
match expression `(key, In, [value])` for each pair — hence exactly one
of each per pair — and none of either when the map is empty or absent. -/
theorem node_selector_entries (sel : List (String × String)) :
    (setNodeSelector basePlacement (some sel)).tolerations =
        sel.map (fun kv => ⟨kv.1, kv.2, "NoSchedule", "Equal"⟩) ∧
    (setNodeSelector basePlacement (some sel)).matchExpressions =
        sel.map (fun kv => ⟨kv.1, "In", [kv.2]⟩) ∧
    (setNodeSelector basePlacement (some sel)).tolerations.length = sel.length ∧
    (setNodeSelector basePlacement (some sel)).matchExpressions.length = sel.length ∧
    (setNodeSelector basePlacement none).tolerations.length = 0 ∧
    (setNodeSelector basePlacement none).matchExpressions.length = 0 := by
  rcases sel with _ | ⟨p, t⟩ <;>
    simp [setNodeSelector, basePlacement]

/-- C9 (counterexample).  A user-supplied pod-labels map may override a
base label's value: with `podLabels = {app: 'x'}`, the produced labels
bind `app` to `'x'`, not to the base value `'screwdriver'`, because
`Object.assign(defaultLabels, podLabels)` lets the user map win. -/
theorem labels_user_override_beats_base :
    jsGet (setLabels (some [("app", "x")]) "15") "app" = some "x" ∧
    jsGet (setLabels (some [("app", "x")]) "15") "app" ≠ some "screwdriver" := by
  refine ⟨rfl, ?_⟩
  decide

/-- C9 (amended).  For every user-supplied pod-labels map, every label
key resolves to the user map's (last) binding when the user map binds
it, and to the base binding (`app = screwdriver`, `tier = builds`,
`sdbuild = <buildContainerName>`) otherwise; in particular the base
keys are always present, with their base values exactly when the user
map does not bind them — user labels are merged on top with precedence
on key collisions. -/
theorem labels_merge_characterization (podLabels : List (String × String))
    (buildContainerName q : String) :
    jsGet (setLabels (some podLabels) buildContainerName) q =
      (jsGet podLabels.reverse q <|> jsGet (defaultLabels buildContainerName) q) := by
  rcases podLabels with _ | ⟨kv, rest⟩
  · simp [setLabels, jsGet]
  · simp only [setLabels, List.isEmpty_cons, Bool.false_eq_true, if_false]
    exact jsGet_jsAssign (kv :: rest) (defaultLabels buildContainerName) q

/-- C10.  A status response whose body carries a `status.conditions`
list with no condition of type `PodScheduled` makes the schedule-wait
retry predicate throw a `TypeError` (from reading `.status` of the
`undefined` find result) rather than the controlled retry signal — in
particular for every non-empty such list — and a response with no
conditions field at all is the only one among these that takes the
not-scheduled `Retry limit reached` path. -/
theorem schedule_strategy_missing_podscheduled (sc : Nat) (ph : String)
    (nn w : Option String) (j : String) (conds : List PodCondition)
    (hno : ∀ c ∈ conds, c.type ≠ "PodScheduled") :
    (conds ≠ [] →
      scheduleStatusRetryStrategy ⟨sc, ⟨ph, nn, some conds, w⟩, j⟩ = .typeError) ∧
    scheduleStatusRetryStrategy ⟨sc, ⟨ph, nn, none, w⟩, j⟩ = .retrySignal ∧
    scheduleStatusRetryStrategy ⟨sc, ⟨ph, nn, some conds, w⟩, j⟩ ≠ .retrySignal := by
  have hfind : conds.find? (fun c => c.type = "PodScheduled") = none := by
    rw [List.find?_eq_none]
    intro c hc
    simp [hno c hc]
  refine ⟨fun _ => ?_, rfl, ?_⟩ <;> simp [scheduleStatusRetryStrategy, hfind]

/-- C10 (witness).  Concrete instance: a response whose only condition
is of type `Ready`. -/
theorem schedule_strategy_missing_podscheduled_witness :
    ((([⟨"Ready", "True"⟩] : List PodCondition) ≠ []) →
      scheduleStatusRetryStrategy
        ⟨200, ⟨"pending", none, some [⟨"Ready", "True"⟩], none⟩, "b"⟩ = .typeError) ∧
    scheduleStatusRetryStrategy ⟨200, ⟨"pending", none, none, none⟩, "b"⟩ = .retrySignal ∧
    scheduleStatusRetryStrategy
        ⟨200, ⟨"pending", none, some [⟨"Ready", "True"⟩], none⟩, "b"⟩ ≠ .retrySignal :=
  schedule_strategy_missing_podscheduled 200 "pending" none none "b"
    [⟨"Ready", "True"⟩] (by decide)

/-- C4 (counterexample).  Verify raises the retryable still-initializing
error based on the waiting reason of the last scanned pod only: for the
list `[running pod without waiting reason, pending pod in
PodInitializing]`, not every pod is `PodInitializing`-transient (the
first is a running pod), yet Verify throws the still-initializing error
instead of returning the (absent) terminal classification. -/
theorem verify_throws_without_all_initializing :
    _verify [⟨"running", none⟩, ⟨"pending", some "PodInitializing"⟩] =
      Except.error "Build failed to start. Pod is still intializing." ∧
    ([⟨"running", none⟩, ⟨"pending", some "PodInitializing"⟩] : List Pod).all
        (fun p => p.waitingReason = some "PodInitializing") = false ∧
    firstClassification [⟨"running", none⟩, ⟨"pending", some "PodInitializing"⟩] = none := by
  refine ⟨rfl, ?_, rfl⟩
  decide

/-- C4 (amended).  Verify scans the listed pods in order; it raises the
retryable still-initializing error exactly when the waiting reason
recorded at the point the scan stops — that of the first terminally
classified pod if one exists, otherwise that of the last listed pod —
is `PodInitializing`, and otherwise it returns the first non-transient
classification of the failure table (or no message when there is
none). -/
theorem verify_characterization (pods : List Pod) :
    _verify pods =
      (if scanStopReason none pods = some "PodInitializing" then
        Except.error "Build failed to start. Pod is still intializing."
      else
        Except.ok (firstClassification pods)) := by
  have h := verifyScan_eq none pods
  simp [_verify, h]

/-- C3 (code bug).  `createPodConfig` is not stateless: the global-flag
PR regex keeps its `lastIndex` across calls, so the second of two
consecutive calls with job name `PR-1:main` fails to detect the pull
request (volume not read-only, parent job id not substituted); and with
the disk cache strategy and prefix `beta_`, `this.cachePath` is
re-extended on every call, so the second call renders a longer cache
path.  In both scenarios the two produced bindings differ. -/
theorem createPodConfig_not_idempotent :
    (prRun1.1.cacheVolumeReadOnly = true ∧ prRun1.1.jobId = some 999 ∧
     prRun2.1.cacheVolumeReadOnly = false ∧ prRun2.1.jobId = some 1 ∧
     prRun1.1 ≠ prRun2.1) ∧
    (diskRun1.1.cachePath = "/persistent_cache/beta_" ∧
     diskRun2.1.cachePath = "/persistent_cache/beta_/beta_" ∧
     diskRun1.1 ≠ diskRun2.1) := by
  refine ⟨⟨rfl, rfl, rfl, rfl, ?_⟩, rfl, rfl, ?_⟩
  · intro h
    have h1 : prRun1.1.cacheVolumeReadOnly = true := rfl
    have h2 : prRun2.1.cacheVolumeReadOnly = false := rfl
    rw [h, h2] at h1
    exact Bool.noConfusion h1
  · intro h
    have h1 : diskRun1.1.cachePath = "/persistent_cache/beta_" := rfl
    rw [h] at h1
    have h2 : diskRun2.1.cachePath = "/persistent_cache/beta_/beta_" := rfl
    rw [h2] at h1
    exact absurd h1 (by decide)

/-- A status response reporting a scheduled, pending pod whose container
is waiting with reason `ErrImagePull` on a node. -/
def errImagePullResponse : StatusResponse :=
  { statusCode := 200
    body := { phase := "pending", nodeName := some "node1"
              conditions := some [⟨"PodScheduled", "True"⟩]
              waitingReason := some "ErrImagePull" }
    bodyJson := "body" }

/-- C1 (counterexample).  A Start invocation whose every status read
reports the fatal image waiting reason `ErrImagePull` (scheduled,
pending pod) does not fail at all: the schedule-wait poll accepts the
very first response (one attempt of the budget of five), and `_start`
resolves with the still-pending signal `false` instead of a
classification error. -/
theorem start_no_failure_on_err_image_pull :
    _start defaultK8sConfig ⟨201, "pod1", "ok"⟩ (fun _ => errImagePullResponse)
        (.ok ()) = .ok false ∧
    pollSchedule defaultK8sConfig.maxAttempts (fun _ => errImagePullResponse) =
      .ok (errImagePullResponse, 1) :=
  ⟨rfl, rfl⟩

set_option linter.unusedVariables false in
/-- C1 (amended).  The start path never inspects container waiting
reasons: for every configuration with a positive attempt budget and
every fatal image or container-creation waiting reason, a created pod
(201) whose status reads report a scheduled pod with phase `pending`
and that waiting reason makes Start resolve with the still-pending
signal `false` — no classification error is raised; waiting-reason
classification is performed by Verify instead.  (The hypothesis on `w`
is deliberately unused by the proof: the embedded start path never
reads the waiting reason, which is precisely the finding.) -/
theorem start_ignores_fatal_waiting_reason (cfg : K8sConfig) (cr : CreateResponse)
    (w : String) (nn : Option String) (j : String)
    (hw : w ∈ fatalAdminReasons ∨ w ∈ fatalImageReasons)
    (hcr : cr.statusCode = 201)
    (hN : 0 < cfg.maxAttempts) :
    _start cfg cr
      (fun _ => ⟨200, ⟨"pending", nn, some [⟨"PodScheduled", "True"⟩], some w⟩, j⟩)
      (.ok ()) = .ok false := by
  obtain ⟨m, hm⟩ : ∃ m, cfg.maxAttempts = m + 1 := ⟨cfg.maxAttempts - 1, by omega⟩
  have hpoll :
      pollSchedule cfg.maxAttempts
        (fun _ => (⟨200, ⟨"pending", nn, some [⟨"PodScheduled", "True"⟩], some w⟩, j⟩ :
          StatusResponse)) =
      .ok (⟨200, ⟨"pending", nn, some [⟨"PodScheduled", "True"⟩], some w⟩, j⟩, 1) := by
    rw [hm]
    rfl
  have hget :
      getPodStatus cfg
        (fun _ => (⟨200, ⟨"pending", nn, some [⟨"PodScheduled", "True"⟩], some w⟩, j⟩ :
          StatusResponse)) = .ok (true, nn) := by
    rw [getPodStatus, hpoll]
    rfl
  rcases cr with ⟨sc, pn, cj⟩
  obtain rfl : sc = 201 := hcr
  rw [_start]
  simp [hget]

/-- C1 (amended, witness).  Concrete instance at the default
configuration with waiting reason `ErrImagePull`. -/
theorem start_ignores_fatal_waiting_reason_witness :
    ("ErrImagePull" ∈ fatalAdminReasons ∨ "ErrImagePull" ∈ fatalImageReasons) ∧
    (⟨201, "pod1", "ok"⟩ : CreateResponse).statusCode = 201 ∧
    0 < defaultK8sConfig.maxAttempts ∧
    _start defaultK8sConfig ⟨201, "pod1", "ok"⟩
      (fun _ => ⟨200, ⟨"pending", some "node1", some [⟨"PodScheduled", "True"⟩],
        some "ErrImagePull"⟩, "body"⟩)
      (.ok ()) = .ok false :=
  ⟨Or.inr (by decide), rfl, by decide,
    start_ignores_fatal_waiting_reason defaultK8sConfig ⟨201, "pod1", "ok"⟩
      "ErrImagePull" (some "node1") "body" (Or.inr (by decide)) rfl (by decide)⟩

/-- A status response reporting a running pod assigned to a node. -/
def runningResponse : StatusResponse :=
  { statusCode := 200
    body := { phase := "running", nodeName := some "node1"
              conditions := some [⟨"PodScheduled", "True"⟩]
              waitingReason := none }
    bodyJson := "body" }

/-- C2 (counterexample).  With pod creation and the status poll
succeeding (running pod on `node1`), a rejected build-status report
changes Start's outcome: Start rejects with the report's error instead
of resolving `true` as it does when the report succeeds. -/
theorem update_failure_changes_start_outcome :
    _start defaultK8sConfig ⟨201, "pod1", "ok"⟩ (fun _ => runningResponse)
        (.error "api down") = .error "api down" ∧
    _start defaultK8sConfig ⟨201, "pod1", "ok"⟩ (fun _ => runningResponse)
        (.ok ()) = .ok true ∧
    (Except.error "api down" : Except String Bool) ≠ .ok true := by
  refine ⟨rfl, rfl, ?_⟩
  intro h
  exact Except.noConfusion h

/-- C2 (amended).  A failure of the build-status report call is logged
and rethrown by `_start`'s catch block: whenever pod creation (201) and
the status poll succeed, a rejected report call makes Start reject with
that same error, aborting the flow. -/
theorem update_failure_rejects_start (cfg : K8sConfig) (cr : CreateResponse)
    (stream : Nat → StatusResponse) (e : String)
    (hcr : cr.statusCode = 201)
    (hok : ∃ r, getPodStatus cfg stream = .ok r) :
    _start cfg cr stream (.error e) = .error e := by
  obtain ⟨r, hr⟩ := hok
  rcases cr with ⟨sc, pn, cj⟩
  obtain rfl : sc = 201 := hcr
  rw [_start]
  simp [hr]

/-- C2 (amended, witness).  Concrete instance: running pod, report call
rejected with `api down`. -/
theorem update_failure_rejects_start_witness :
    (⟨201, "pod1", "ok"⟩ : CreateResponse).statusCode = 201 ∧
    (∃ r, getPodStatus defaultK8sConfig (fun _ => runningResponse) = .ok r) ∧
    _start defaultK8sConfig ⟨201, "pod1", "ok"⟩ (fun _ => runningResponse)
        (.error "api down") = .error "api down" :=
  ⟨rfl, ⟨(false, some "node1"), rfl⟩,
    update_failure_rejects_start defaultK8sConfig ⟨201, "pod1", "ok"⟩
      (fun _ => runningResponse) "api down" rfl ⟨(false, some "node1"), rfl⟩⟩

end ExecK8s
